import Mathlib

/-!
# AutoRAG — shallow embedding and verification

A shallow embedding of the AutoRAG snapshot (configuration loader/validator,
Supabase row fetcher, Pinecone vector-store wrapper, RAG pipeline, and the
`optimize` CLI command), with theorems settling the specification claims.

Conventions of the embedding:
* Python dictionary/JSON scalar values are modelled by `PyValue`
  (`None`, `str`, `int`, `bool`), with Python truthiness and `str()` coercion.
* Pydantic validation of a model is a function from an *input* record — in
  which every field is `Option`-wrapped, `Option.none` meaning the field is
  absent from the supplied data — to `Except String` of the validated record.
  Pydantic v2 does not run field validators on default values
  (`validate_default` is left at `False` throughout the source), so an absent
  field takes its default with no validator applied; a field that is present
  is validated, `null` in YAML arriving as an explicit `Option.none` value of
  the inner `Option String`.
* Network calls are parameters of type `Except String _`: the value the SDK
  call would return, or the exception it would raise.
* Floating-point embedding vectors and similarity scores are never inspected
  arithmetically by the code, so they are carried as type parameters.
-/

namespace AutoRAG

/-- Python scalar values appearing in database rows and configs. -/
inductive PyValue where
  | none : PyValue
  | str : String → PyValue
  | int : Int → PyValue
  | bool : Bool → PyValue
deriving DecidableEq, Repr

/-- Python truthiness (`bool(v)`) on the scalar universe. -/
def PyValue.truthy : PyValue → Bool
  | .none => false
  | .str s => s ≠ ""
  | .int n => n ≠ 0
  | .bool b => b

/-- Python `str()` coercion on the scalar universe. -/
def PyValue.toStr : PyValue → String
  | .none => "None"
  | .str s => s
  | .int n => toString n
  | .bool b => if b then "True" else "False"

/-- Python `not v` on an `Optional[str]` value: `None` and `""` are falsy. -/
def pyFalsyStr : Option String → Bool
  | Option.none => true
  | some s => s = ""

/-- Python `str.strip()` with no argument: remove leading and trailing
whitespace characters. -/
def pyStrip (s : String) : String :=
  ⟨((s.data.dropWhile Char.isWhitespace).reverse.dropWhile Char.isWhitespace).reverse⟩

/-! ## `autorag/utils/config.py` -/

/-- Raw data supplied for the `database` block: each field is either absent
(outer `Option.none`, pydantic uses the default and skips validators) or
present with a possibly-`null` value. -/
structure DatabaseConfigInput where
  type : String
  url : Option (Option String) := Option.none
  key : Option (Option String) := Option.none
  table : Option (Option String) := Option.none
  text_column : Option (Option String) := Option.none
  id_column : Option (Option String) := Option.none
  connection_string : Option (Option String) := Option.none
  database : Option (Option String) := Option.none
  collection : Option (Option String) := Option.none
  host : Option (Option String) := Option.none
  port : Option (Option Int) := Option.none
  user : Option (Option String) := Option.none
  password : Option (Option String) := Option.none
deriving DecidableEq, Repr

/-- The validated `DatabaseConfig` model. The duplicated `text_column` /
`id_column` class attributes in the source resolve, by Python class-body
semantics, to the last definitions: defaults `"content"` and `"id"`. -/
structure DatabaseConfig where
  type : String
  url : Option String
  key : Option String
  table : Option String
  text_column : Option String
  id_column : Option String
  connection_string : Option String
  database : Option String
  collection : Option String
  host : Option String
  port : Option Int
  user : Option String
  password : Option String
deriving DecidableEq, Repr

/-- Pydantic field resolution: an absent field takes the default without
validation; a present field runs the field validator. -/
def resolveField (provided : Option (Option String)) (dflt : Option String)
    (check : Option String → Except String (Option String)) :
    Except String (Option String) :=
  match provided with
  | Option.none => .ok dflt
  | some v => check v

/-- Validation of `DatabaseConfig` (`config.py` lines 11-70): the `type`
literal, then each field in declaration order with its `field_validator`. -/
def DatabaseConfig.validate (inp : DatabaseConfigInput) :
    Except String DatabaseConfig := do
  if inp.type ≠ "supabase" ∧ inp.type ≠ "mongodb" ∧ inp.type ≠ "postgresql" then
    throw "type: Input should be 'supabase', 'mongodb' or 'postgresql'"
  let url ← resolveField inp.url Option.none fun v =>
    if inp.type = "supabase" ∧ pyFalsyStr v then
      throw "Supabase URL is required when type is 'supabase'"
    else pure v
  let key ← resolveField inp.key Option.none fun v =>
    if inp.type = "supabase" ∧ pyFalsyStr v then
      throw "Supabase key is required when type is 'supabase'"
    else pure v
  let table ← resolveField inp.table Option.none pure
  let text_column ← resolveField inp.text_column (some "content") pure
  let id_column ← resolveField inp.id_column (some "id") pure
  let connection_string ← resolveField inp.connection_string Option.none fun v =>
    if inp.type = "mongodb" ∧ pyFalsyStr v then
      throw "MongoDB connection string is required when type is 'mongodb'"
    else pure v
  let database ← resolveField inp.database Option.none pure
  let collection ← resolveField inp.collection Option.none pure
  let host ← resolveField inp.host Option.none fun v =>
    if inp.type = "postgresql" ∧ pyFalsyStr v then
      throw "PostgreSQL host is required when type is 'postgresql'"
    else pure v
  let port := (inp.port).getD Option.none
  let user ← resolveField inp.user Option.none pure
  let password ← resolveField inp.password Option.none pure
  pure { type := inp.type, url := url, key := key, table := table,
         text_column := text_column, id_column := id_column,
         connection_string := connection_string, database := database,
         collection := collection, host := host, port := port,
         user := user, password := password }

/-- Raw data supplied for the `api_keys` block. `groq` and `pinecone` are
required fields; `pinecone_index` defaults to `"autorag"`. -/
structure APIKeysConfigInput where
  groq : Option String := Option.none
  pinecone : Option String := Option.none
  pinecone_index : Option String := Option.none
deriving DecidableEq, Repr

/-- The validated `APIKeysConfig` model. -/
structure APIKeysConfig where
  groq : String
  pinecone : String
  pinecone_index : String
deriving DecidableEq, Repr

/-- Validation of `APIKeysConfig` (`config.py` lines 73-94): the `groq` and
`pinecone` validators reject empty or whitespace-only keys
(`not v or v.strip() == ""`). -/
def APIKeysConfig.validate (inp : APIKeysConfigInput) :
    Except String APIKeysConfig := do
  let groq ← match inp.groq with
    | Option.none => throw "groq: Field required"
    | some v =>
      if v = "" ∨ pyStrip v = "" then throw "Groq API key cannot be empty"
      else pure v
  let pinecone ← match inp.pinecone with
    | Option.none => throw "pinecone: Field required"
    | some v =>
      if v = "" ∨ pyStrip v = "" then throw "Pinecone API key cannot be empty"
      else pure v
  let pinecone_index := (inp.pinecone_index).getD "autorag"
  pure { groq := groq, pinecone := pinecone, pinecone_index := pinecone_index }

/-- Raw data supplied for the `optimization` block. -/
structure OptimizationConfigInput where
  num_experiments : Option Int := Option.none
  test_questions : Option Int := Option.none
deriving DecidableEq, Repr

/-- The validated `OptimizationConfig` model. -/
structure OptimizationConfig where
  num_experiments : Int
  test_questions : Int
deriving DecidableEq, Repr

/-- Validation of `OptimizationConfig` (`config.py` lines 97-111):
`num_experiments` defaults to 20 with bounds 1..100, `test_questions`
defaults to 50 with bounds 10..500. -/
def OptimizationConfig.validate (inp : OptimizationConfigInput) :
    Except String OptimizationConfig := do
  let num_experiments ← match inp.num_experiments with
    | Option.none => pure (20 : Int)
    | some n =>
      if n < 1 then throw "num_experiments: Input should be greater than or equal to 1"
      else if n > 100 then throw "num_experiments: Input should be less than or equal to 100"
      else pure n
  let test_questions ← match inp.test_questions with
    | Option.none => pure (50 : Int)
    | some n =>
      if n < 10 then throw "test_questions: Input should be greater than or equal to 10"
      else if n > 500 then throw "test_questions: Input should be less than or equal to 500"
      else pure n
  pure { num_experiments := num_experiments, test_questions := test_questions }

/-- Raw data supplied for the whole YAML document. -/
structure ConfigInput where
  database : Option DatabaseConfigInput := Option.none
  api_keys : Option APIKeysConfigInput := Option.none
  optimization : Option OptimizationConfigInput := Option.none
deriving DecidableEq, Repr

/-- The validated top-level `Config` model. -/
structure Config where
  database : DatabaseConfig
  api_keys : APIKeysConfig
  optimization : OptimizationConfig
deriving DecidableEq, Repr

/-- Validation of `Config` (`config.py` lines 114-119): all three blocks are
required sub-models. -/
def Config.validate (inp : ConfigInput) : Except String Config := do
  let database ← match inp.database with
    | Option.none => throw "database: Field required"
    | some d => DatabaseConfig.validate d
  let api_keys ← match inp.api_keys with
    | Option.none => throw "api_keys: Field required"
    | some a => APIKeysConfig.validate a
  let optimization ← match inp.optimization with
    | Option.none => throw "optimization: Field required"
    | some o => OptimizationConfig.validate o
  pure { database := database, api_keys := api_keys, optimization := optimization }

/-- The three exception kinds `load_config` documents:
`FileNotFoundError`, `yaml.YAMLError`, `ValueError`. -/
inductive LoadError where
  | fileNotFound (msg : String)
  | yamlError (msg : String)
  | valueError (msg : String)
deriving DecidableEq, Repr

/-- Embedding of `load_config` (`config.py` lines 122-158), from the point the filesystem
and YAML parser answer: `fileExists` is whether `config_path.exists()`,
`yaml` is the outcome of `yaml.safe_load`.  Any exception from
`Config(**config_data)` is re-raised as
`ValueError("Invalid configuration: ...")`. -/
def load_config (fileExists : Bool) (path : String)
    (yaml : Except String ConfigInput) : Except LoadError Config :=
  if !fileExists then
    .error (.fileNotFound ("Config file not found: " ++ path))
  else
    match yaml with
    | .error e => .error (.yamlError ("Invalid YAML syntax in " ++ path ++ ": " ++ e))
    | .ok config_data =>
      match Config.validate config_data with
      | .error e => .error (.valueError ("Invalid configuration: " ++ e))
      | .ok config => .ok config

/-! ## `autorag/database/supabase.py` -/

/-- A row returned by `client.table(...).select("*")`: a JSON object, i.e.
a key-unique association list of column name to scalar value. -/
abbrev Row := List (String × PyValue)

/-- The standard document format produced by `fetch_documents`. -/
structure Doc where
  id : String
  text : String
  metadata : List (String × PyValue)
deriving DecidableEq, Repr

/-- Embedding of `SupabaseConnector.test_connection` (`supabase.py` lines 29-44): the
probing `select` either succeeds (return `True`) or its exception is wrapped
as `Exception("Failed to connect to Supabase: ...")`. -/
def test_connection (net : Except String Unit) : Except String Bool :=
  match net with
  | .ok _ => .ok true
  | .error e => .error ("Failed to connect to Supabase: " ++ e)

/-- Body of the row loop in `fetch_documents`: `row.get` on the id and text
columns (absent key gives `None`), skip unless both are truthy, otherwise
emit `str` coercions plus the remaining columns as metadata. -/
def processRow (idColumn textColumn : String) (row : Row) : Option Doc :=
  let doc_id := (row.lookup idColumn).getD PyValue.none
  let text := (row.lookup textColumn).getD PyValue.none
  if doc_id.truthy ∧ text.truthy then
    some { id := doc_id.toStr, text := text.toStr,
           metadata := row.filter fun kv => kv.1 ≠ idColumn ∧ kv.1 ≠ textColumn }
  else Option.none

/-- Embedding of `SupabaseConnector.fetch_documents` (`supabase.py` lines 46-96): `net` is
the `select(...).execute()` outcome, whose `.data` may be `None` or a list of
rows; `if not result.data: return []`; otherwise the row loop; any exception
is wrapped as `Exception("Failed to fetch documents from Supabase: ...")`. -/
def fetch_documents (idColumn textColumn : String)
    (net : Except String (Option (List Row))) : Except String (List Doc) :=
  match net with
  | .error e => .error ("Failed to fetch documents from Supabase: " ++ e)
  | .ok data =>
    match data with
    | Option.none => .ok []
    | some rows =>
      if rows.isEmpty then .ok []
      else .ok (rows.filterMap (processRow idColumn textColumn))

/-- Embedding of `SupabaseConnector.count_documents` (`supabase.py` lines 98-109):
`result.count or 0`, exceptions wrapped. -/
def count_documents (net : Except String (Option Int)) : Except String Int :=
  match net with
  | .ok c => .ok (c.getD 0)
  | .error e => .error ("Failed to count documents: " ++ e)

/-! ## `autorag/rag/vector_store.py` -/

/-- Python dict update `d[k] = v` on an insertion-ordered association list:
an existing key is updated in place, a new key is appended. -/
def dictSet (d : List (String × PyValue)) (k : String) (v : PyValue) :
    List (String × PyValue) :=
  if d.any fun kv => kv.1 = k then
    d.map fun kv => if kv.1 = k then (k, v) else kv
  else d ++ [(k, v)]

/-- A vector prepared for upsert: `{"id": str(doc["id"]), "values": embedding,
"metadata": {"text": doc["text"][:1000], **doc.get("metadata", {})}}`.
Python dict-literal spread semantics: the metadata entries are merged into the
dict after the `"text"` entry, later keys overriding. -/
structure PVector (α : Type) where
  id : String
  values : α
  metadata : List (String × PyValue)
deriving DecidableEq, Repr

/-- The vector-preparation loop of `upsert_documents`
(`vector_store.py` lines 61-70). -/
def prepare_vectors {α : Type} (documents : List Doc) (embeddings : List α) :
    List (PVector α) :=
  (documents.zip embeddings).map fun de =>
    { id := de.1.id, values := de.2,
      metadata := de.1.metadata.foldl (fun d kv => dictSet d kv.1 kv.2)
        [("text", PyValue.str (de.1.text.take 1000))] }

/-- The batching loop `for i in range(0, len(vectors), batch_size)` with
`batch_size = 100` (`vector_store.py` lines 72-76): successive slices
`vectors[i:i+100]`. -/
def toBatches {β : Type} (vectors : List β) : List (List β) :=
  if h : vectors.isEmpty then []
  else vectors.take 100 :: toBatches (vectors.drop 100)
termination_by vectors.length
decreasing_by
  simp only [List.length_drop]
  have hpos : 0 < vectors.length := by
    cases vectors with
    | nil => simp at h
    | cons a t => simp
  omega

/-- Embedding of `VectorStore.upsert_documents` (`vector_store.py` lines 49-76).  The first
component is the sequence of `index.upsert` calls issued (one list per batch);
the second is the `ValueError` raised, if any.  The length check precedes any
upsert, so on mismatch no call is issued. -/
def upsert_documents {α : Type} (documents : List Doc) (embeddings : List α) :
    List (List (PVector α)) × Option String :=
  if documents.length ≠ embeddings.length then
    ([], some ("Mismatch: " ++ toString documents.length ++ " documents but "
        ++ toString embeddings.length ++ " embeddings"))
  else
    (toBatches (prepare_vectors documents embeddings), Option.none)

/-- A raw Pinecone query match (`results.matches` element): id, similarity
score (opaque float, carried as a type parameter), stored metadata.  Metadata
values are the strings the code stored. -/
structure RawMatch (σ : Type) where
  id : String
  score : σ
  metadata : List (String × String)
deriving DecidableEq, Repr

/-- A formatted match returned by `VectorStore.search`. -/
structure SearchMatch (σ : Type) where
  id : String
  score : σ
  text : String
  metadata : List (String × String)
deriving DecidableEq, Repr

/-- The result-formatting loop of `VectorStore.search`
(`vector_store.py` lines 96-106): `text` is `match.metadata.get("text", "")`,
`metadata` is the stored metadata with the `"text"` key removed. -/
def search {σ : Type} (results : List (RawMatch σ)) : List (SearchMatch σ) :=
  results.map fun m =>
    { id := m.id, score := m.score,
      text := (m.metadata.lookup "text").getD "",
      metadata := m.metadata.filter fun kv => kv.1 ≠ "text" }

/-! ## `autorag/rag/pipeline.py` -/

/-- A `sources` entry built by `RAGPipeline.query`. -/
structure Source (σ : Type) where
  id : String
  score : σ
  text : String
deriving DecidableEq, Repr

/-- The dict returned by `RAGPipeline.query`. -/
structure QueryResult (σ : Type) where
  answer : String
  sources : List (Source σ)
  retrieved_docs : List (SearchMatch σ)
deriving DecidableEq, Repr

/-- Embedding of `RAGPipeline._build_context` (`pipeline.py` lines 111-116). -/
def build_context {σ : Type} (documents : List (SearchMatch σ)) : String :=
  String.intercalate "\n" (documents.enum.map fun idoc =>
    "Document " ++ toString (idoc.1 + 1) ++ ":\n" ++ idoc.2.text ++ "\n")

/-- Embedding of `RAGPipeline.query` (`pipeline.py` lines 59-109), from the point the
vector search answers: `rawResults` is what Pinecone returned for the embedded
question, `llm` is the Groq chat completion as a function of question and
context.  The boolean records whether the LLM was called. -/
def RAGPipeline.query {σ : Type} (question : String)
    (rawResults : List (RawMatch σ)) (llm : String → String → String) :
    QueryResult σ × Bool :=
  let retrieved_docs := search rawResults
  if retrieved_docs.isEmpty then
    ({ answer := "No relevant documents found in the database.",
       sources := [], retrieved_docs := [] }, false)
  else
    let context := build_context retrieved_docs
    let answer := llm question context
    let sources := retrieved_docs.map fun doc =>
      { id := doc.id, score := doc.score, text := doc.text.take 200 ++ "..." }
    ({ answer := answer, sources := sources, retrieved_docs := retrieved_docs },
     true)

/-! ## `autorag/cli.py`, command `optimize` -/

/-- The config-loading stage of `optimize` (`cli.py` lines 46-58): each of the
three `except` arms prints and raises `typer.Exit(code=1)`. -/
def optimize_config_stage (lc : Except LoadError Config) : Except Nat Config :=
  match lc with
  | .ok config => .ok config
  | .error _ => .error 1

/-- The database stage of `optimize` (`cli.py` lines 93-119): a non-supabase
type, a failed connection test, a failed count, or a zero count all end in
`typer.Exit(code=1)`; otherwise the document count is available. -/
def optimize_db_stage (dbType : String) (connNet : Except String Unit)
    (countNet : Except String (Option Int)) : Except Nat Int :=
  if dbType ≠ "supabase" then .error 1
  else
    match test_connection connNet with
    | .error _ => .error 1
    | .ok _ =>
      match count_documents countNet with
      | .error _ => .error 1
      | .ok doc_count =>
        if doc_count = 0 then .error 1 else .ok doc_count

/-- The document-fetching stage of `optimize` (`cli.py` lines 121-144):
`fetch_limit = min(doc_count, 100)` is the limit handed to
`connector.fetch_documents`, whose capped query outcome is the `fetchNet`
parameter; any exception — in particular the wrapped one that
`fetch_documents` re-raises on a failed network call — is caught by the
`except` arm and ends in `typer.Exit(code=1)`. -/
def optimize_fetch_stage (idColumn textColumn : String) (docCount : Int)
    (fetchNet : Except String (Option (List Row))) : Except Nat (Int × List Doc) :=
  let fetch_limit := min docCount 100
  match fetch_documents idColumn textColumn fetchNet with
  | .error _ => .error 1
  | .ok documents => .ok (fetch_limit, documents)

/-- What the indexing stage of `optimize` did: whether `pipeline.clear_index`
ran and whether `pipeline.index_documents` ran. -/
structure IndexTrace where
  cleared : Bool := false
  indexed : Bool := false
deriving DecidableEq, Repr

/-- Reading the Python local `skip_indexing`: raises `UnboundLocalError`
when no assignment has executed on the path. -/
def readLocal (v : Option Bool) : Except String Bool :=
  match v with
  | Option.none =>
    .error "cannot access local variable 'skip_indexing' where it is not associated with a value"
  | some b => .ok b

/-- The `try` block of the indexing section of `optimize`
(`cli.py` lines 172-195).  When `vector_count > 0` and the user confirms
re-indexing, `clear_index()` runs and `skip_indexing` is left unassigned;
the subsequent `if not skip_indexing:` read then raises. -/
def optimize_indexing_try (vectorCount : Nat) (reindexConfirm : Bool) :
    IndexTrace × Except String Unit :=
  let skipAndCleared : Option Bool × Bool :=
    if vectorCount > 0 then
      if reindexConfirm then (Option.none, true)
      else (some true, false)
    else (some false, false)
  match readLocal skipAndCleared.1 with
  | .error e => ({ cleared := skipAndCleared.2 }, .error e)
  | .ok skip_indexing =>
    if !skip_indexing then
      ({ cleared := skipAndCleared.2, indexed := true }, .ok ())
    else
      ({ cleared := skipAndCleared.2 }, .ok ())

/-- The indexing stage of `optimize` with its `except` arm
(`cli.py` lines 172-199): any exception ends in `typer.Exit(code=1)`. -/
def optimize_indexing_stage (vectorCount : Nat) (reindexConfirm : Bool) :
    IndexTrace × Option Nat :=
  match optimize_indexing_try vectorCount reindexConfirm with
  | (tr, .ok _) => (tr, Option.none)
  | (tr, .error _) => (tr, some 1)

/-- The row-keeping condition of `fetch_documents`: the id-column and
text-column values (absent key giving `None`) are both truthy. -/
def keepRow (idColumn textColumn : String) (row : Row) : Bool :=
  ((row.lookup idColumn).getD PyValue.none).truthy
    && ((row.lookup textColumn).getD PyValue.none).truthy

/-- The row-to-document transformation of `fetch_documents`: `str` coercions
of the id and text values, remaining columns as metadata. -/
def docOfRow (idColumn textColumn : String) (row : Row) : Doc :=
  { id := ((row.lookup idColumn).getD PyValue.none).toStr,
    text := ((row.lookup textColumn).getD PyValue.none).toStr,
    metadata := row.filter fun kv => kv.1 ≠ idColumn ∧ kv.1 ≠ textColumn }

/-! ## Helper lemmas -/

theorem exceptThrow_eq {ε α : Type} (e : ε) : (throw e : Except ε α) = Except.error e := rfl

theorem exceptPure_eq {ε α : Type} (a : α) : (pure a : Except ε α) = Except.ok a := rfl

theorem exceptBind_error {ε α β : Type} (e : ε) (f : α → Except ε β) :
    ((Except.error e : Except ε α) >>= f) = Except.error e := rfl

theorem exceptBind_ok {ε α β : Type} (a : α) (f : α → Except ε β) :
    ((Except.ok a : Except ε α) >>= f) = f a := rfl

theorem toBatches_nil {β : Type} : toBatches ([] : List β) = [] := by
  rw [toBatches]
  simp

theorem toBatches_cons {β : Type} (vs : List β) (h : vs ≠ []) :
    toBatches vs = vs.take 100 :: toBatches (vs.drop 100) := by
  rw [toBatches, dif_neg]
  simp [h]

theorem toBatches_flatten {β : Type} (vectors : List β) :
    (toBatches vectors).flatten = vectors := by
  suffices H : ∀ (n : Nat) (vs : List β), vs.length ≤ n → (toBatches vs).flatten = vs from
    H vectors.length vectors (Nat.le_refl _)
  intro n
  induction n with
  | zero =>
    intro vs hlen
    have hnil : vs = [] := List.length_eq_zero.mp (Nat.le_zero.mp hlen)
    subst hnil
    rw [toBatches_nil]
    rfl
  | succ n ih =>
    intro vs hlen
    by_cases hvs : vs = []
    · subst hvs; rw [toBatches_nil]; rfl
    · have hpos : 0 < vs.length := List.length_pos.mpr hvs
      have hd := List.length_drop 100 vs
      rw [toBatches_cons vs hvs, List.flatten_cons, ih (vs.drop 100) (by omega),
        List.take_append_drop]

theorem toBatches_mem {β : Type} (vectors : List β) :
    ∀ b ∈ toBatches vectors, b ≠ [] ∧ b.length ≤ 100 := by
  suffices H : ∀ (n : Nat) (vs : List β), vs.length ≤ n →
      ∀ b ∈ toBatches vs, b ≠ [] ∧ b.length ≤ 100 from
    H vectors.length vectors (Nat.le_refl _)
  intro n
  induction n with
  | zero =>
    intro vs hlen b hb
    have hnil : vs = [] := List.length_eq_zero.mp (Nat.le_zero.mp hlen)
    subst hnil
    rw [toBatches_nil] at hb
    exact absurd hb (List.not_mem_nil b)
  | succ n ih =>
    intro vs hlen b hb
    by_cases hvs : vs = []
    · subst hvs; rw [toBatches_nil] at hb; exact absurd hb (List.not_mem_nil b)
    · have hpos : 0 < vs.length := List.length_pos.mpr hvs
      have hd := List.length_drop 100 vs
      rw [toBatches_cons vs hvs] at hb
      rcases List.mem_cons.mp hb with hb | hb
      · subst hb
        refine ⟨?_, ?_⟩
        · intro hc
          have := congrArg List.length hc
          rw [List.length_take, List.length_nil] at this
          omega
        · rw [List.length_take]; omega
      · exact ih (vs.drop 100) (by omega) b hb

theorem toBatches_dropLast {β : Type} (vectors : List β) :
    ∀ b ∈ (toBatches vectors).dropLast, b.length = 100 := by
  suffices H : ∀ (n : Nat) (vs : List β), vs.length ≤ n →
      ∀ b ∈ (toBatches vs).dropLast, b.length = 100 from
    H vectors.length vectors (Nat.le_refl _)
  intro n
  induction n with
  | zero =>
    intro vs hlen b hb
    have hnil : vs = [] := List.length_eq_zero.mp (Nat.le_zero.mp hlen)
    subst hnil
    rw [toBatches_nil] at hb
    exact absurd hb (List.not_mem_nil b)
  | succ n ih =>
    intro vs hlen b hb
    by_cases hvs : vs = []
    · subst hvs; rw [toBatches_nil] at hb; exact absurd hb (List.not_mem_nil b)
    · have hpos : 0 < vs.length := List.length_pos.mpr hvs
      have hd := List.length_drop 100 vs
      rw [toBatches_cons vs hvs] at hb
      cases hrec : toBatches (vs.drop 100) with
      | nil => rw [hrec] at hb; simp at hb
      | cons r rs =>
        rw [hrec, List.dropLast_cons₂] at hb
        rcases List.mem_cons.mp hb with hb | hb
        · subst hb
          have hdropne : vs.drop 100 ≠ [] := by
            intro hc
            rw [hc, toBatches_nil] at hrec
            exact List.noConfusion hrec
          have h100 : 100 < vs.length := by
            have := List.length_pos.mpr hdropne
            omega
          rw [List.length_take]
          omega
        · exact ih (vs.drop 100) (by omega) b (by rw [hrec]; exact hb)

theorem processRow_eq (idColumn textColumn : String) (row : Row) :
    processRow idColumn textColumn row =
      if keepRow idColumn textColumn row
      then some (docOfRow idColumn textColumn row) else Option.none := by
  simp only [processRow, keepRow, docOfRow, Bool.and_eq_true]

theorem filterMap_processRow (idColumn textColumn : String) (rows : List Row) :
    rows.filterMap (processRow idColumn textColumn) =
      (rows.filter (keepRow idColumn textColumn)).map (docOfRow idColumn textColumn) := by
  induction rows with
  | nil => rfl
  | cons r rs ih =>
    rw [List.filterMap_cons, List.filter_cons, processRow_eq]
    by_cases h : keepRow idColumn textColumn r
    · rw [if_pos h, if_pos h, List.map_cons, ih]
    · rw [if_neg h, if_neg h, ih]

/-! ## Claims -/

/-- C1: the claim says a supabase-typed config missing URL or key (absent,
null, or empty) is always rejected.  The code rejects explicit `null` and
`""`, but pydantic skips field validators for absent fields, so a config with
the `url` (or `key`) line simply missing is accepted — contradicting the
validator's own message that the field is required. -/
theorem c1_supabase_missing_field_behavior :
    DatabaseConfig.validate
        { type := "supabase", key := some (some "service-key"), table := some (some "documents") }
      = .ok { type := "supabase", url := Option.none, key := some "service-key",
              table := some "documents", text_column := some "content", id_column := some "id",
              connection_string := Option.none, database := Option.none, collection := Option.none,
              host := Option.none, port := Option.none, user := Option.none, password := Option.none }
    ∧ load_config true "config.yaml" (.ok
        { database := some { type := "supabase", key := some (some "service-key"),
                             table := some (some "documents") },
          api_keys := some { groq := some "groq-key", pinecone := some "pinecone-key" },
          optimization := some {} })
      = .ok { database := { type := "supabase", url := Option.none, key := some "service-key",
                            table := some "documents", text_column := some "content",
                            id_column := some "id", connection_string := Option.none,
                            database := Option.none, collection := Option.none, host := Option.none,
                            port := Option.none, user := Option.none, password := Option.none },
              api_keys := { groq := "groq-key", pinecone := "pinecone-key",
                            pinecone_index := "autorag" },
              optimization := { num_experiments := 20, test_questions := 50 } }
    ∧ DatabaseConfig.validate
        { type := "supabase", url := some Option.none, key := some (some "service-key") }
      = .error "Supabase URL is required when type is 'supabase'"
    ∧ DatabaseConfig.validate
        { type := "supabase", url := some (some ""), key := some (some "service-key") }
      = .error "Supabase URL is required when type is 'supabase'"
    ∧ DatabaseConfig.validate
        { type := "supabase", url := some (some "https://proj.supabase.co"),
          key := some Option.none }
      = .error "Supabase key is required when type is 'supabase'" :=
  ⟨rfl, rfl, rfl, rfl, rfl⟩

/-- C2: an api_keys block whose groq or pinecone key is empty or
whitespace-only is rejected by `APIKeysConfig`, and `load_config` turns any
such validation failure into a `ValueError`. -/
theorem c2_empty_api_key_rejected (inp : APIKeysConfigInput) (g p : String)
    (hg : inp.groq = some g) (hp : inp.pinecone = some p)
    (hws : pyStrip g = "" ∨ pyStrip p = "") :
    (∃ e, APIKeysConfig.validate inp = .error e)
      ∧ ∀ (db : Option DatabaseConfigInput) (opt : Option OptimizationConfigInput)
          (path : String), ∃ msg,
          load_config true path
              (.ok { database := db, api_keys := some inp, optimization := opt })
            = .error (.valueError msg) := by
  have herr : ∃ e, APIKeysConfig.validate inp = .error e := by
    by_cases hge : g = "" ∨ pyStrip g = ""
    · exact ⟨"Groq API key cannot be empty",
        by simp [APIKeysConfig.validate, hg, hge, exceptThrow_eq, exceptBind_error]⟩
    · have hpe : p = "" ∨ pyStrip p = "" :=
        Or.inr (hws.resolve_left fun hc => hge (Or.inr hc))
      exact ⟨"Pinecone API key cannot be empty",
        by simp [APIKeysConfig.validate, hg, hp, hge, hpe, exceptThrow_eq, exceptPure_eq, exceptBind_error, exceptBind_ok]⟩
  refine ⟨herr, fun db opt path => ?_⟩
  obtain ⟨e, he⟩ := herr
  cases db with
  | none => exact ⟨"Invalid configuration: database: Field required", rfl⟩
  | some d =>
    cases hdv : DatabaseConfig.validate d with
    | error e' =>
      exact ⟨"Invalid configuration: " ++ e', by simp [load_config, Config.validate, hdv, exceptThrow_eq, exceptPure_eq, exceptBind_error, exceptBind_ok]⟩
    | ok dv =>
      have hcv : Config.validate
          { database := some d, api_keys := some inp, optimization := opt } = .error e := by
        simp [Config.validate, hdv, he, exceptThrow_eq, exceptPure_eq, exceptBind_error, exceptBind_ok]
      exact ⟨"Invalid configuration: " ++ e, by simp [load_config, hcv]⟩

theorem c2_witness :
    (∃ e, APIKeysConfig.validate { groq := some " ", pinecone := some "pinecone-key" }
        = .error e)
      ∧ ∃ msg, load_config true "config.yaml"
          (.ok { database := some { type := "supabase", url := some (some "u"),
                                    key := some (some "k") },
                 api_keys := some { groq := some " ", pinecone := some "pinecone-key" },
                 optimization := some {} })
          = .error (.valueError msg) := by
  have h := c2_empty_api_key_rejected
    { groq := some " ", pinecone := some "pinecone-key" } " " "pinecone-key"
    rfl rfl (Or.inl (by decide))
  exact ⟨h.1, h.2 _ _ _⟩

/-- C3: validation failures surface from `load_config` as
`ValueError("Invalid configuration: ...")`; Supabase call failures are
re-raised with the wrapping messages of `test_connection`, `fetch_documents`
and `count_documents`; and the `optimize` command maps any of these errors —
a config validation failure, a failed connection test, a failed document
count, or a failed document fetch — to exit code 1 (nonzero). -/
theorem c3_exception_policy (path : String) (cd : ConfigInput) (e : String)
    (hv : Config.validate cd = .error e) :
    (load_config true path (.ok cd)
        = .error (.valueError ("Invalid configuration: " ++ e))
      ∧ ∃ rest, load_config true path (.ok cd)
          = .error (.valueError ("Invalid configuration:" ++ rest)))
      ∧ (∀ msg : String,
          test_connection (.error msg)
              = .error ("Failed to connect to Supabase: " ++ msg)
            ∧ (∀ idColumn textColumn : String,
                fetch_documents idColumn textColumn (.error msg)
                  = .error ("Failed to fetch documents from Supabase: " ++ msg))
            ∧ count_documents (.error msg)
              = .error ("Failed to count documents: " ++ msg))
      ∧ (optimize_config_stage (load_config true path (.ok cd)) = .error 1
          ∧ (∀ (msg : String) (countNet : Except String (Option Int)),
              optimize_db_stage "supabase" (.error msg) countNet = .error 1)
          ∧ (∀ msg : String,
              optimize_db_stage "supabase" (.ok ()) (.error msg) = .error 1)
          ∧ (∀ (msg idColumn textColumn : String) (docCount : Int),
              optimize_fetch_stage idColumn textColumn docCount (.error msg)
                = .error 1)
          ∧ (1 : Nat) ≠ 0) := by
  have hl : load_config true path (.ok cd)
      = .error (.valueError ("Invalid configuration: " ++ e)) := by
    simp [load_config, hv]
  refine ⟨⟨hl, ⟨" " ++ e, ?_⟩⟩, ?_, ?_⟩
  · rw [hl, ← String.append_assoc]
    rfl
  · intro msg
    exact ⟨rfl, fun i t => rfl, rfl⟩
  · exact ⟨by rw [hl]; rfl, fun msg countNet => rfl, fun msg => rfl,
      fun msg i t dc => rfl, by decide⟩

theorem c3_witness :
    load_config true "config.yaml" (.ok {})
        = .error (.valueError ("Invalid configuration: " ++ "database: Field required"))
      ∧ test_connection (.error "connection refused")
        = .error ("Failed to connect to Supabase: " ++ "connection refused")
      ∧ optimize_db_stage "supabase" (.error "connection refused") (.ok (some 5))
        = .error 1
      ∧ optimize_fetch_stage "id" "content" 5 (.error "connection refused")
        = .error 1 := by
  have h := c3_exception_policy "config.yaml" {} "database: Field required" rfl
  exact ⟨h.1.1, (h.2.1 "connection refused").1,
    h.2.2.2.1 "connection refused" _,
    h.2.2.2.2.2.1 "connection refused" "id" "content" 5⟩

/-- C4: with matching lengths, `upsert_documents` succeeds and sends the
prepared vectors in consecutive batches: every batch is nonempty with at most
100 vectors, every batch except possibly the last has exactly 100, and the
concatenation of the batches is the full prepared vector list (hence input
order is preserved). -/
theorem c4_upsert_batching {α : Type} (documents : List Doc) (embeddings : List α)
    (h : documents.length = embeddings.length) :
    (upsert_documents documents embeddings).2 = Option.none
      ∧ (upsert_documents documents embeddings).1
          = toBatches (prepare_vectors documents embeddings)
      ∧ ((upsert_documents documents embeddings).1).flatten
          = prepare_vectors documents embeddings
      ∧ (∀ b ∈ (upsert_documents documents embeddings).1, b ≠ [] ∧ b.length ≤ 100)
      ∧ (∀ b ∈ ((upsert_documents documents embeddings).1).dropLast, b.length = 100) := by
  have he : upsert_documents documents embeddings
      = (toBatches (prepare_vectors documents embeddings), Option.none) := by
    simp [upsert_documents, h]
  rw [he]
  exact ⟨rfl, rfl, toBatches_flatten _, toBatches_mem _, toBatches_dropLast _⟩

theorem c4_witness :
    ([({ id := "1", text := "hello", metadata := [] } : Doc)].length = [[(0 : Nat)]].length)
      ∧ (upsert_documents [({ id := "1", text := "hello", metadata := [] } : Doc)]
          [[(0 : Nat)]]).2 = Option.none :=
  ⟨rfl, (c4_upsert_batching [({ id := "1", text := "hello", metadata := [] } : Doc)]
    [[(0 : Nat)]] rfl).1⟩

/-- C5: every match produced by `search` carries the raw match's id and score,
its stored metadata's `"text"` value (default `""`), and the stored metadata
with the `"text"` key removed; and every `sources` entry of
`RAGPipeline.query` carries a retrieved match's id, score, and its text
truncated to 200 characters with `"..."` appended. -/
theorem c5_match_and_source_shape {σ : Type} (results : List (RawMatch σ))
    (question : String) (llm : String → String → String) :
    (∀ sm ∈ search results, ∃ m ∈ results,
        sm.id = m.id ∧ sm.score = m.score
          ∧ sm.text = (m.metadata.lookup "text").getD ""
          ∧ sm.metadata = m.metadata.filter fun kv => kv.1 ≠ "text")
      ∧ (∀ s ∈ (RAGPipeline.query question results llm).1.sources,
          ∃ sm ∈ search results,
            s.id = sm.id ∧ s.score = sm.score ∧ s.text = sm.text.take 200 ++ "...") := by
  constructor
  · intro sm hsm
    simp only [search, List.mem_map] at hsm
    obtain ⟨m, hm, rfl⟩ := hsm
    exact ⟨m, hm, rfl, rfl, rfl, rfl⟩
  · intro s hs
    by_cases hemp : (search results).isEmpty
    · simp only [RAGPipeline.query, if_pos hemp] at hs
      simp at hs
    · simp only [RAGPipeline.query, if_neg hemp] at hs
      simp only [List.mem_map] at hs
      obtain ⟨sm, hsm, rfl⟩ := hs
      exact ⟨sm, hsm, rfl, rfl, rfl⟩

theorem c5_witness :
    (∃ m ∈ [({ id := "d1", score := 5, metadata := [("text", "hello"), ("src", "a")] } : RawMatch Nat)],
        ({ id := "d1", score := 5, text := "hello", metadata := [("src", "a")] } : SearchMatch Nat).id = m.id
          ∧ (5 : Nat) = m.score
          ∧ "hello" = (m.metadata.lookup "text").getD ""
          ∧ [("src", "a")] = m.metadata.filter fun kv => kv.1 ≠ "text") := by
  have h := (c5_match_and_source_shape
    [({ id := "d1", score := 5, metadata := [("text", "hello"), ("src", "a")] } : RawMatch Nat)]
    "q" (fun _ _ => "answer")).1
    { id := "d1", score := 5, text := "hello", metadata := [("src", "a")] }
    (by simp [search])
  exact h

/-- C6: `fetch_documents` keeps exactly the rows whose id-column and
text-column values are both truthy, in row order, each transformed to the
string coercions of those values with the remaining columns as metadata; a
missing (`None`) result yields the empty list. -/
theorem c6_fetch_documents_shape (idColumn textColumn : String) (rows : List Row) :
    fetch_documents idColumn textColumn (.ok (some rows))
        = .ok ((rows.filter (keepRow idColumn textColumn)).map (docOfRow idColumn textColumn))
      ∧ fetch_documents idColumn textColumn (.ok Option.none) = .ok [] := by
  constructor
  · by_cases h : rows.isEmpty
    · have hnil : rows = [] := List.isEmpty_iff.mp h
      subst hnil
      rfl
    · simp only [fetch_documents, h, filterMap_processRow]
      rfl
  · rfl

/-- C7 counterexample: a fully-populated supabase config whose groq key is
the non-empty string `" "` is rejected by `load_config`, refuting the claim
that every fully-populated config with non-empty keys is accepted. -/
theorem c7_counterexample :
    load_config true "config.yaml" (.ok
        { database := some { type := "supabase",
                             url := some (some "https://proj.supabase.co"),
                             key := some (some "service-key"),
                             table := some (some "documents") },
          api_keys := some { groq := some " ", pinecone := some "pinecone-key" },
          optimization := some { num_experiments := some 20, test_questions := some 50 } })
      = .error (.valueError "Invalid configuration: Groq API key cannot be empty") := rfl

/-- C7 (amended): a fully-populated supabase config — non-empty url, key and
table, groq and pinecone keys containing at least one non-whitespace
character, and optimization settings within their declared ranges — is
accepted, and `load_config` returns the `Config` carrying those values. -/
theorem c7_full_config_accepted (url key table groq pinecone : String)
    (ne tq : Int) (path : String)
    (hurl : url ≠ "") (hkey : key ≠ "") (_htable : table ≠ "")
    (hg : pyStrip groq ≠ "") (hp : pyStrip pinecone ≠ "")
    (hne1 : 1 ≤ ne) (hne2 : ne ≤ 100) (htq1 : 10 ≤ tq) (htq2 : tq ≤ 500) :
    load_config true path (.ok
        { database := some { type := "supabase", url := some (some url),
                             key := some (some key), table := some (some table) },
          api_keys := some { groq := some groq, pinecone := some pinecone },
          optimization := some { num_experiments := some ne,
                                 test_questions := some tq } })
      = .ok { database := { type := "supabase", url := some url, key := some key,
                            table := some table, text_column := some "content",
                            id_column := some "id", connection_string := Option.none,
                            database := Option.none, collection := Option.none,
                            host := Option.none, port := Option.none,
                            user := Option.none, password := Option.none },
              api_keys := { groq := groq, pinecone := pinecone,
                            pinecone_index := "autorag" },
              optimization := { num_experiments := ne, test_questions := tq } } := by
  have hgne : ¬(groq = "" ∨ pyStrip groq = "") := by
    rintro (rfl | hc)
    · exact hg (by decide)
    · exact hg hc
  have hpne : ¬(pinecone = "" ∨ pyStrip pinecone = "") := by
    rintro (rfl | hc)
    · exact hp (by decide)
    · exact hp hc
  have htype : ¬(("supabase" : String) ≠ "supabase" ∧ ("supabase" : String) ≠ "mongodb"
      ∧ ("supabase" : String) ≠ "postgresql") := by decide
  have h1 : ¬(ne < 1) := by omega
  have h2 : ¬(ne > 100) := by omega
  have h3 : ¬(tq < 10) := by omega
  have h4 : ¬(tq > 500) := by omega
  simp [load_config, Config.validate, DatabaseConfig.validate, APIKeysConfig.validate,
        OptimizationConfig.validate, resolveField, pyFalsyStr, hurl, hkey,
        hgne, hpne, htype, h1, h2, h3, h4,
        exceptThrow_eq, exceptPure_eq, exceptBind_error, exceptBind_ok]

theorem c7_witness :
    (("https://proj.supabase.co" : String) ≠ "" ∧ pyStrip "groq-key" ≠ ""
        ∧ pyStrip "pinecone-key" ≠ "" ∧ (1 : Int) ≤ 20 ∧ (20 : Int) ≤ 100)
      ∧ load_config true "config.yaml" (.ok
          { database := some { type := "supabase",
                               url := some (some "https://proj.supabase.co"),
                               key := some (some "service-key"),
                               table := some (some "documents") },
            api_keys := some { groq := some "groq-key", pinecone := some "pinecone-key" },
            optimization := some { num_experiments := some 20,
                                   test_questions := some 50 } })
        = .ok { database := { type := "supabase", url := some "https://proj.supabase.co",
                              key := some "service-key", table := some "documents",
                              text_column := some "content", id_column := some "id",
                              connection_string := Option.none, database := Option.none,
                              collection := Option.none, host := Option.none,
                              port := Option.none, user := Option.none,
                              password := Option.none },
                api_keys := { groq := "groq-key", pinecone := "pinecone-key",
                              pinecone_index := "autorag" },
                optimization := { num_experiments := 20, test_questions := 50 } } :=
  ⟨⟨by decide, by decide, by decide, by decide, by decide⟩,
    c7_full_config_accepted "https://proj.supabase.co" "service-key" "documents"
      "groq-key" "pinecone-key" 20 50 "config.yaml"
      (by decide) (by decide) (by decide) (by decide) (by decide)
      (by decide) (by decide) (by decide) (by decide)⟩

/-- C8: when the index already holds vectors and the user confirms clearing
and re-indexing, the `skip_indexing` local is read unassigned: the try block
raises, `index_documents` never runs, and the command exits with code 1. -/
theorem c8_skip_indexing_unbound (vectorCount : Nat) (h : 0 < vectorCount) :
    optimize_indexing_try vectorCount true
        = ({ cleared := true, indexed := false },
           .error "cannot access local variable 'skip_indexing' where it is not associated with a value")
      ∧ optimize_indexing_stage vectorCount true
        = ({ cleared := true, indexed := false }, some 1) := by
  constructor <;>
    simp [optimize_indexing_stage, optimize_indexing_try, readLocal, h]

theorem c8_witness :
    optimize_indexing_stage 3 true = ({ cleared := true, indexed := false }, some 1) :=
  (c8_skip_indexing_unbound 3 (by decide)).2

/-- C9: `upsert_documents` raises `ValueError` exactly when the document and
embedding counts differ, and in that case no upsert call is issued. -/
theorem c9_upsert_length_check {α : Type} (documents : List Doc) (embeddings : List α) :
    ((upsert_documents documents embeddings).2.isSome
        ↔ documents.length ≠ embeddings.length)
      ∧ (documents.length ≠ embeddings.length
          → (upsert_documents documents embeddings).1 = []) := by
  by_cases h : documents.length = embeddings.length
  · simp [upsert_documents, h]
  · simp [upsert_documents, h]

theorem c9_witness :
    (upsert_documents (α := List Nat) [] [[1]]).1 = []
      ∧ (upsert_documents (α := List Nat) [] [[1]]).2.isSome :=
  ⟨(c9_upsert_length_check [] [[1]]).2 (by decide),
    (c9_upsert_length_check (α := List Nat) [] [[1]]).1.mpr (by decide)⟩

/-- C10: when the vector search returns no matches, `RAGPipeline.query`
returns exactly the fixed no-documents answer with empty sources and
retrieved_docs, and no LLM call is made. -/
theorem c10_no_matches_short_circuit {σ : Type} (question : String)
    (rawResults : List (RawMatch σ)) (llm : String → String → String)
    (h : search rawResults = []) :
    RAGPipeline.query question rawResults llm
      = ({ answer := "No relevant documents found in the database.",
           sources := [], retrieved_docs := [] }, false) := by
  simp only [RAGPipeline.query, h]
  rfl

theorem c10_witness :
    RAGPipeline.query (σ := Nat) "What is the main topic discussed in these documents?"
        [] (fun _ _ => "answer")
      = ({ answer := "No relevant documents found in the database.",
           sources := [], retrieved_docs := [] }, false) :=
  c10_no_matches_short_circuit "What is the main topic discussed in these documents?"
    [] (fun _ _ => "answer") rfl

end AutoRAG
